import Mathlib

/-!
Verification of the search-filter validation/normalization module of the
spot-exchange repository (`searchUtils` in `src/unnamed/part_010`, types in
`src/unnamed/part_010`'s second document, and the saved-searches POST route
in `src/apps/web/src/app/api/saved-searches/route.ts`).

Modelling conventions (shallow embedding of the TypeScript source):
* JS strings are lists of characters (`JSString := List Char`); `trim`
  removes the common whitespace characters, `toUpperCase` maps ASCII
  lowercase to uppercase.
* JS numbers are rationals (`JSNumber := ℚ`); `NaN`/`Infinity` are outside
  the model (no call site produces them for the checked fields).
* JS truthiness: a number is truthy iff it is nonzero, a string iff it is
  nonempty; objects and arrays are always truthy.
* Optional fields of an interface are `Option` fields; a missing key is
  `none`.
* `new Date(a) > new Date(b)` on the ISO date strings the module documents
  is modelled as strict lexicographic comparison of the strings, which
  agrees with chronological order on equal-format ISO-8601 strings.
* The runtime values of `equipment_types` etc. are plain strings (the
  TypeScript union types are compile-time only; `queryParamsToFilters`
  casts arbitrary query-string fragments into them).
-/

/-- JS strings as character lists. -/
abbrev JSString := List Char

/-- JS numbers as rationals (NaN/Infinity outside the model). -/
abbrev JSNumber := ℚ

/-- The whitespace characters removed by `String.prototype.trim`
(restricted to the common ASCII whitespace). -/
def jsWhitespace (c : Char) : Bool :=
  c = ' ' || c = '\t' || c = '\n' || c = '\r'

/-- Drop leading whitespace. -/
def trimLeft (s : JSString) : JSString := s.dropWhile jsWhitespace

/-- Drop trailing whitespace. -/
def trimRight (s : JSString) : JSString := (s.reverse.dropWhile jsWhitespace).reverse

/-- Model of `String.prototype.trim`. -/
def jsTrim (s : JSString) : JSString := trimRight (trimLeft s)

/-- Model of `String.prototype.toUpperCase`, character-wise (ASCII): maps the code
points 97–122 (`a`–`z`) down by 32, as `Char.toUpper` does. -/
def jsUpChar (c : Char) : Char :=
  if 97 ≤ c.toNat ∧ c.toNat ≤ 122 then Char.ofNat (c.toNat - 32) else c

/-- Model of `String.prototype.toUpperCase`. -/
def jsToUpper (s : JSString) : JSString := s.map jsUpChar

/-- Strict lexicographic order on strings; models `new Date(a) < new Date(b)`
for ISO date strings of equal format. -/
def strLt : JSString → JSString → Bool
  | [], [] => false
  | [], _ :: _ => true
  | _ :: _, [] => false
  | a :: s, b :: t => if a < b then true else if b < a then false else strLt s t

/-- First-occurrence deduplication with an accumulator of already-seen
elements; models the order-preserving semantics of `new Set(...)`. -/
def dedupFirst {α : Type} [DecidableEq α] (seen : List α) : List α → List α
  | [] => []
  | a :: l => if a ∈ seen then dedupFirst seen l else a :: dedupFirst (a :: seen) l

/-- Model of `Array.from(new Set(xs))`: deduplicate keeping first occurrences. -/
def jsSetDedup {α : Type} [DecidableEq α] (l : List α) : List α := dedupFirst [] l

/-! ## Data model (`types/search`) -/

/-- The `LocationFilter` interface from `types/search`. -/
structure LocationFilter where
  city : Option JSString := none
  state : Option JSString := none
  radius : Option JSNumber := none
deriving DecidableEq, Repr

/-- The `DateRange` interface from `types/search` (`from`/`to` are ISO date strings). -/
structure DateRange where
  dfrom : Option JSString := none
  dto : Option JSString := none
deriving DecidableEq, Repr

/-- The `NumericRange` interface from `types/search`. -/
structure NumericRange where
  min : Option JSNumber := none
  max : Option JSNumber := none
deriving DecidableEq, Repr

/-- The keys of the `SearchFilters` interface (`keyof SearchFilters`). -/
inductive SFField where
  | origin | destination
  | equipment_types | cargo_types
  | pickup_date_range | delivery_date_range
  | rate_range | rate_per_mile_range | weight_range | distance_range
  | status_filters | urgency
  | exclude_locked | only_no_bids | only_my_bids | exclude_my_bids
  | search_text
  | sort_by | sort_order
  | page | per_page
deriving DecidableEq, Repr

/-- The `SearchFilters` interface from `types/search`.  The enumerated array fields hold
runtime strings (the TS unions are erased at runtime). -/
structure SearchFilters where
  origin : Option LocationFilter := none
  destination : Option LocationFilter := none
  equipment_types : Option (List JSString) := none
  cargo_types : Option (List JSString) := none
  pickup_date_range : Option DateRange := none
  delivery_date_range : Option DateRange := none
  rate_range : Option NumericRange := none
  rate_per_mile_range : Option NumericRange := none
  weight_range : Option NumericRange := none
  distance_range : Option NumericRange := none
  status_filters : Option (List JSString) := none
  urgency : Option (List JSString) := none
  exclude_locked : Option Bool := none
  only_no_bids : Option Bool := none
  only_my_bids : Option Bool := none
  exclude_my_bids : Option Bool := none
  search_text : Option JSString := none
  sort_by : Option JSString := none
  sort_order : Option JSString := none
  page : Option JSNumber := none
  per_page : Option JSNumber := none
deriving DecidableEq, Repr

/-- The `FilterValidationError` interface from `types/search`. -/
structure FilterValidationError where
  field : SFField
  message : JSString
deriving DecidableEq, Repr

/-- The ten allowed values of the `EquipmentType` union in `types/search`. -/
def validEquipmentTypes : List JSString :=
  ["dry_van".data, "reefer".data, "flatbed".data, "step_deck".data,
   "lowboy".data, "tanker".data, "container".data, "box_truck".data,
   "straight_truck".data, "hotshot".data]

/-- The ten allowed values of the `CargoType` union in `types/search`. -/
def validCargoTypes : List JSString :=
  ["general".data, "electronics".data, "food".data, "hazmat".data,
   "automotive".data, "machinery".data, "textiles".data, "chemicals".data,
   "furniture".data, "paper".data]

/-! ## Validator (`validateSearchFilters` and helpers) -/

/-- Truthiness of an optional JS string (`undefined` and `""` are falsy). -/
def truthyStr : Option JSString → Bool
  | some s => !s.isEmpty
  | none => false

/-- Error message interpolation for `${bound}` template literals. -/
def ratText (q : ℚ) : JSString := (toString q).data

/-- The `validateDateRange` helper from `searchUtils`. -/
def validateDateRange (range : DateRange) (field : SFField) :
    Option FilterValidationError :=
  if truthyStr range.dfrom ∧ truthyStr range.dto then
    match range.dfrom, range.dto with
    | some f, some t =>
      if strLt t f then some ⟨field, "From date cannot be after To date".data⟩
      else none
    | _, _ => none
  else none

/-- The `validateNumericRange` helper from `searchUtils`: the three checks in source
order, returning on the first that fires. -/
def validateNumericRange (range : NumericRange) (field : SFField)
    (absoluteMin absoluteMax : ℚ) : Option FilterValidationError :=
  match range.min, range.max with
  | some mn, some mx =>
    if mn < absoluteMin then
      some ⟨field, "Minimum value cannot be less than ".data ++ ratText absoluteMin⟩
    else if mx > absoluteMax then
      some ⟨field, "Maximum value cannot be greater than ".data ++ ratText absoluteMax⟩
    else if mn > mx then
      some ⟨field, "Minimum value cannot be greater than maximum value".data⟩
    else none
  | some mn, none =>
    if mn < absoluteMin then
      some ⟨field, "Minimum value cannot be less than ".data ++ ratText absoluteMin⟩
    else none
  | none, some mx =>
    if mx > absoluteMax then
      some ⟨field, "Maximum value cannot be greater than ".data ++ ratText absoluteMax⟩
    else none
  | none, none => none

/-- The `validateLocationFilter` helper from `searchUtils`. -/
def validateLocationFilter (location : LocationFilter) (field : SFField) :
    Option FilterValidationError :=
  match location.radius with
  | some r =>
    if r < 0 ∨ r > 500 then
      some ⟨field, "Radius must be between 0 and 500 miles".data⟩
    else none
  | none => none

/-- One validation site of `validateSearchFilters`: a guarded optional error
(`if (filters.x) { ... if (err) errors.push(err) }`). -/
def siteErrs {α : Type} (o : Option α) (f : α → Option FilterValidationError) :
    List FilterValidationError :=
  match o with
  | some a => (f a).toList
  | none => []

/-- The `validateSearchFilters` function from `searchUtils`: the accumulated error list,
one site per checked field, in source order.  The pagination guards keep the
source's truthiness test (`filters.page && filters.page < 1`), so a zero
value skips the check. -/
def validateSearchFilters (filters : SearchFilters) : List FilterValidationError :=
  siteErrs filters.pickup_date_range (fun r => validateDateRange r .pickup_date_range) ++
  siteErrs filters.delivery_date_range (fun r => validateDateRange r .delivery_date_range) ++
  siteErrs filters.rate_range (fun r => validateNumericRange r .rate_range 0 1000000) ++
  siteErrs filters.rate_per_mile_range (fun r => validateNumericRange r .rate_per_mile_range 0 50) ++
  siteErrs filters.weight_range (fun r => validateNumericRange r .weight_range 0 80000) ++
  siteErrs filters.distance_range (fun r => validateNumericRange r .distance_range 0 5000) ++
  siteErrs filters.origin (fun l => validateLocationFilter l .origin) ++
  siteErrs filters.destination (fun l => validateLocationFilter l .destination) ++
  siteErrs filters.equipment_types (fun ts =>
    if ts.isEmpty then
      some ⟨.equipment_types, "At least one equipment type must be selected".data⟩
    else none) ++
  siteErrs filters.page (fun p =>
    if p ≠ 0 ∧ p < 1 then
      some ⟨.page, "Page number must be greater than 0".data⟩
    else none) ++
  siteErrs filters.per_page (fun p =>
    if p ≠ 0 ∧ (p < 1 ∨ p > 100) then
      some ⟨.per_page, "Results per page must be between 1 and 100".data⟩
    else none)

/-! ## Normalizer (`normalizeSearchFilters` and helpers) -/

/-- Source line `if (location.city && location.city.trim()) clean.city = location.city.trim()`. -/
def cleanCity (o : Option JSString) : Option JSString :=
  match o with
  | some c => if !c.isEmpty && !(jsTrim c).isEmpty then some (jsTrim c) else none
  | none => none

/-- Source lines `if (location.state && location.state.trim())
clean.state = location.state.trim().toUpperCase()`. -/
def cleanState (o : Option JSString) : Option JSString :=
  match o with
  | some s => if !s.isEmpty && !(jsTrim s).isEmpty then some (jsToUpper (jsTrim s)) else none
  | none => none

/-- Source lines `if (location.radius !== undefined && location.radius >= 0)
clean.radius = Math.min(500, location.radius)`. -/
def cleanRadius (o : Option JSNumber) : Option JSNumber :=
  match o with
  | some r => if 0 ≤ r then some (min 500 r) else none
  | none => none

/-- The `cleanLocationFilter` helper from `searchUtils`. -/
def cleanLocationFilter (location : LocationFilter) : LocationFilter :=
  { city := cleanCity location.city,
    state := cleanState location.state,
    radius := cleanRadius location.radius }

/-- Copy-if-truthy for an optional string key
(`if (x) clean.k = x`, as for the date-range endpoints and `sort_by`/`sort_order`). -/
def copyTruthyStr : Option JSString → Option JSString
  | some s => if !s.isEmpty then some s else none
  | none => none

/-- The `cleanDateRange` helper from `searchUtils` (keeps truthy endpoints). -/
def cleanDateRange (range : DateRange) : DateRange :=
  { dfrom := copyTruthyStr range.dfrom,
    dto := copyTruthyStr range.dto }

/-- One endpoint of `cleanNumericRange`: kept when defined and nonnegative. -/
def cleanEndpoint (o : Option JSNumber) : Option JSNumber :=
  match o with
  | some m => if 0 ≤ m then some m else none
  | none => none

/-- The `cleanNumericRange` helper from `searchUtils` (keeps nonnegative endpoints;
note it does not compare `min` with `max`). -/
def cleanNumericRange (range : NumericRange) : NumericRange :=
  { min := cleanEndpoint range.min,
    max := cleanEndpoint range.max }

/-- Array cleaning in `normalizeSearchFilters`:
`Array.from(new Set(xs.filter(Boolean)))`. -/
def cleanArray (l : List JSString) : List JSString :=
  jsSetDedup (l.filter (fun s => !s.isEmpty))

/-- The `search_text` cleaning in `normalizeSearchFilters`: trim, then delete
the key when the trimmed value is falsy. -/
def cleanSearchText : Option JSString → Option JSString
  | some s =>
    if !s.isEmpty then
      (if !(jsTrim s).isEmpty then some (jsTrim s) else none)
    else none
  | none => none

/-- The `page` normalization: `if (filters.page) normalized.page = Math.max(1, filters.page)`. -/
def cleanPage : Option JSNumber → Option JSNumber
  | some p => if p ≠ 0 then some (max 1 p) else none
  | none => none

/-- The `per_page` normalization:
`if (filters.per_page) normalized.per_page = Math.min(100, Math.max(1, filters.per_page))`. -/
def cleanPerPage : Option JSNumber → Option JSNumber
  | some p => if p ≠ 0 then some (min 100 (max 1 p)) else none
  | none => none

/-- The `normalizeSearchFilters` function from `searchUtils`. -/
def normalizeSearchFilters (filters : SearchFilters) : SearchFilters :=
  { origin := filters.origin.map cleanLocationFilter,
    destination := filters.destination.map cleanLocationFilter,
    pickup_date_range := filters.pickup_date_range.map cleanDateRange,
    delivery_date_range := filters.delivery_date_range.map cleanDateRange,
    rate_range := filters.rate_range.map cleanNumericRange,
    rate_per_mile_range := filters.rate_per_mile_range.map cleanNumericRange,
    weight_range := filters.weight_range.map cleanNumericRange,
    distance_range := filters.distance_range.map cleanNumericRange,
    equipment_types := filters.equipment_types.map cleanArray,
    cargo_types := filters.cargo_types.map cleanArray,
    status_filters := filters.status_filters.map cleanArray,
    urgency := filters.urgency.map cleanArray,
    search_text := cleanSearchText filters.search_text,
    exclude_locked := filters.exclude_locked,
    only_no_bids := filters.only_no_bids,
    only_my_bids := filters.only_my_bids,
    exclude_my_bids := filters.exclude_my_bids,
    sort_by := copyTruthyStr filters.sort_by,
    sort_order := copyTruthyStr filters.sort_order,
    page := cleanPage filters.page,
    per_page := cleanPerPage filters.per_page }

/-! ## Saved-search create route (`POST /api/saved-searches`) -/

/-- A row of the `saved_searches` table, restricted to the columns the
default-uniqueness invariant concerns. -/
structure SavedRow where
  user_id : Nat
  name : JSString
  filters : SearchFilters
  is_default : Bool
deriving DecidableEq, Repr

/-- One row's update in the `update({is_default: false})` step: a row of
the posting user that is currently default is cleared, any other row is
untouched. -/
def clearRow (u : Nat) (r : SavedRow) : SavedRow :=
  if r.user_id = u ∧ r.is_default then { r with is_default := false } else r

/-- The `update({is_default: false}).eq('user_id', u).eq('is_default', true)`
step of the POST handler. -/
def clearUserDefaults (state : List SavedRow) (u : Nat) : List SavedRow :=
  state.map (clearRow u)

/-- The saved-search create operation (`POST /api/saved-searches`), as one
sequential state transition over the table: reject blank names and invalid
filters without writing; otherwise, when `is_default` is requested, first
clear the user's current default, then insert the new normalized row. -/
def postSavedSearch (state : List SavedRow) (u : Nat) (name : JSString)
    (filters : SearchFilters) (is_default : Bool) : List SavedRow :=
  if (jsTrim name).isEmpty then state
  else if !(validateSearchFilters filters).isEmpty then state
  else
    (if is_default then clearUserDefaults state u else state) ++
      [⟨u, jsTrim name, normalizeSearchFilters filters, is_default⟩]

/-- The invariant "at most one saved search per user has
`is_default = true`": no two rows are both default for the same user. -/
def atMostOneDefault (state : List SavedRow) : Prop :=
  state.Pairwise (fun a b => ¬(a.is_default = true ∧ b.is_default = true ∧ a.user_id = b.user_id))

instance (state : List SavedRow) : Decidable (atMostOneDefault state) := by
  unfold atMostOneDefault
  exact List.instDecidablePairwise state

/-! ## String lemmas -/

theorem toNat_charOfNat_valid {n : Nat} (h : n < 55296) : (Char.ofNat n).toNat = n := by
  have hv : n.isValidChar := Or.inl h
  unfold Char.ofNat
  rw [dif_pos hv]
  rfl

theorem char_ne_of_toNat_ne {c d : Char} (h : c.toNat ≠ d.toNat) : c ≠ d :=
  fun he => h (by rw [he])

theorem jsUpChar_toNat (c : Char) :
    (jsUpChar c).toNat = if 97 ≤ c.toNat ∧ c.toNat ≤ 122 then c.toNat - 32 else c.toNat := by
  unfold jsUpChar
  split
  · next h => exact toNat_charOfNat_valid (by omega)
  · rfl

theorem jsWhitespace_jsUpChar (c : Char) : jsWhitespace (jsUpChar c) = jsWhitespace c := by
  by_cases h : 97 ≤ c.toNat ∧ c.toNat ≤ 122
  · have h1 : (jsUpChar c).toNat = c.toNat - 32 := by rw [jsUpChar_toNat, if_pos h]
    have hsp : (' ' : Char).toNat = 32 := rfl
    have hta : ('\t' : Char).toNat = 9 := rfl
    have htn : ('\n' : Char).toNat = 10 := rfl
    have htr : ('\r' : Char).toNat = 13 := rfl
    have hA : jsWhitespace (jsUpChar c) = false := by
      simp only [jsWhitespace, Bool.or_eq_false_iff, decide_eq_false_iff_not]
      refine ⟨⟨⟨?_, ?_⟩, ?_⟩, ?_⟩ <;> · apply char_ne_of_toNat_ne; omega
    have hB : jsWhitespace c = false := by
      simp only [jsWhitespace, Bool.or_eq_false_iff, decide_eq_false_iff_not]
      refine ⟨⟨⟨?_, ?_⟩, ?_⟩, ?_⟩ <;> · apply char_ne_of_toNat_ne; omega
    rw [hA, hB]
  · have h1 : jsUpChar c = c := by rw [jsUpChar, if_neg h]
    rw [h1]

theorem jsUpChar_idem (c : Char) : jsUpChar (jsUpChar c) = jsUpChar c := by
  by_cases h : 97 ≤ c.toNat ∧ c.toNat ≤ 122
  · have h1 : (jsUpChar c).toNat = c.toNat - 32 := by rw [jsUpChar_toNat, if_pos h]
    have h2 : ¬(97 ≤ (jsUpChar c).toNat ∧ (jsUpChar c).toNat ≤ 122) := by omega
    show (if 97 ≤ (jsUpChar c).toNat ∧ (jsUpChar c).toNat ≤ 122 then
        Char.ofNat ((jsUpChar c).toNat - 32) else jsUpChar c) = jsUpChar c
    rw [if_neg h2]
  · have h1 : jsUpChar c = c := by rw [jsUpChar, if_neg h]
    rw [h1]
    exact h1

theorem jsToUpper_idem (s : JSString) : jsToUpper (jsToUpper s) = jsToUpper s := by
  unfold jsToUpper
  rw [List.map_map]
  exact List.map_congr_left fun c _ => jsUpChar_idem c

theorem jsToUpper_eq_nil_iff (s : JSString) : jsToUpper s = [] ↔ s = [] := by
  unfold jsToUpper
  exact List.map_eq_nil_iff

theorem trimLeft_idem (s : JSString) : trimLeft (trimLeft s) = trimLeft s :=
  List.dropWhile_idempotent _ _

theorem trimRight_eq_rdropWhile (s : JSString) : trimRight s = s.rdropWhile jsWhitespace := rfl

theorem trimRight_idem (s : JSString) : trimRight (trimRight s) = trimRight s := by
  rw [trimRight_eq_rdropWhile, trimRight_eq_rdropWhile]
  exact List.rdropWhile_idempotent _ _

theorem trimLeft_of_trimmed {s : JSString} (h : trimLeft s = s) :
    trimLeft (trimRight s) = trimRight s := by
  rcases e : trimRight s with _ | ⟨a, r⟩
  · rfl
  · have hpre : trimRight s <+: s := by
      rw [trimRight_eq_rdropWhile]; exact List.rdropWhile_prefix _ _
    rw [e] at hpre
    obtain ⟨t, ht⟩ := hpre
    have hs : s = a :: (r ++ t) := by rw [← ht]; rfl
    have haws : jsWhitespace a = false := by
      by_contra hw
      rw [Bool.not_eq_false] at hw
      rw [hs] at h
      unfold trimLeft at h
      rw [List.dropWhile_cons, if_pos hw] at h
      have hlen := List.Sublist.length_le (List.dropWhile_sublist (l := r ++ t) jsWhitespace)
      rw [h] at hlen
      simp at hlen
    unfold trimLeft
    rw [List.dropWhile_cons, haws]
    simp

theorem jsTrim_idem (s : JSString) : jsTrim (jsTrim s) = jsTrim s := by
  unfold jsTrim
  rw [trimLeft_of_trimmed (trimLeft_idem s), trimRight_idem]

theorem jsWhitespace_comp_jsUpChar : jsWhitespace ∘ jsUpChar = jsWhitespace :=
  funext jsWhitespace_jsUpChar

theorem trimLeft_jsToUpper (s : JSString) : trimLeft (jsToUpper s) = jsToUpper (trimLeft s) := by
  unfold trimLeft jsToUpper
  rw [List.dropWhile_map, jsWhitespace_comp_jsUpChar]

theorem trimRight_jsToUpper (s : JSString) : trimRight (jsToUpper s) = jsToUpper (trimRight s) := by
  unfold trimRight jsToUpper
  rw [← List.map_reverse, List.dropWhile_map, jsWhitespace_comp_jsUpChar, List.map_reverse]

theorem jsTrim_jsToUpper (s : JSString) : jsTrim (jsToUpper s) = jsToUpper (jsTrim s) := by
  unfold jsTrim
  rw [trimLeft_jsToUpper, trimRight_jsToUpper]

/-! ## Deduplication lemmas -/

theorem mem_of_mem_dedupFirst {α : Type} [DecidableEq α] {a : α} :
    ∀ {seen l : List α}, a ∈ dedupFirst seen l → a ∈ l := by
  intro seen l
  induction l generalizing seen with
  | nil => intro h; exact absurd h (List.not_mem_nil a)
  | cons b l ih =>
    intro h
    unfold dedupFirst at h
    split at h
    · exact List.mem_cons_of_mem b (ih h)
    · rcases List.mem_cons.mp h with h1 | h1
      · exact h1 ▸ List.mem_cons_self b l
      · exact List.mem_cons_of_mem b (ih h1)

theorem dedupFirst_nodup_avoid {α : Type} [DecidableEq α] :
    ∀ (seen l : List α), (dedupFirst seen l).Nodup ∧ ∀ a ∈ dedupFirst seen l, a ∉ seen := by
  intro seen l
  induction l generalizing seen with
  | nil => exact ⟨List.nodup_nil, fun a h => absurd h (List.not_mem_nil a)⟩
  | cons b l ih =>
    unfold dedupFirst
    split
    · exact ih seen
    · next hb =>
      obtain ⟨hnd, havoid⟩ := ih (b :: seen)
      refine ⟨List.Nodup.cons ?_ hnd, ?_⟩
      · intro hmem
        exact (havoid b hmem) (List.mem_cons_self b seen)
      · intro a ha
        rcases List.mem_cons.mp ha with h1 | h1
        · exact h1 ▸ hb
        · intro hseen
          exact (havoid a h1) (List.mem_cons_of_mem b hseen)

theorem dedupFirst_eq_self {α : Type} [DecidableEq α] :
    ∀ (seen l : List α), l.Nodup → (∀ a ∈ l, a ∉ seen) → dedupFirst seen l = l := by
  intro seen l
  induction l generalizing seen with
  | nil => intro _ _; rfl
  | cons b l ih =>
    intro hnd havoid
    unfold dedupFirst
    rw [if_neg (havoid b (List.mem_cons_self b l))]
    congr 1
    refine ih (b :: seen) (List.Nodup.of_cons hnd) ?_
    intro a ha hmem
    rcases List.mem_cons.mp hmem with h1 | h1
    · exact (List.Nodup.not_mem hnd) (h1 ▸ ha)
    · exact (havoid a (List.mem_cons_of_mem b ha)) h1

theorem jsSetDedup_nodup {α : Type} [DecidableEq α] (l : List α) : (jsSetDedup l).Nodup :=
  (dedupFirst_nodup_avoid [] l).1

theorem jsSetDedup_subset {α : Type} [DecidableEq α] {a : α} {l : List α}
    (h : a ∈ jsSetDedup l) : a ∈ l :=
  mem_of_mem_dedupFirst h

theorem jsSetDedup_of_nodup {α : Type} [DecidableEq α] {l : List α} (h : l.Nodup) :
    jsSetDedup l = l :=
  dedupFirst_eq_self [] l h (fun a _ => List.not_mem_nil a)

theorem cleanArray_idem (l : List JSString) : cleanArray (cleanArray l) = cleanArray l := by
  unfold cleanArray
  have hall : ∀ s ∈ jsSetDedup (l.filter fun s => !s.isEmpty), (!s.isEmpty) = true :=
    fun s hs => (List.mem_filter.mp (jsSetDedup_subset hs)).2
  rw [List.filter_eq_self.mpr hall]
  exact jsSetDedup_of_nodup (jsSetDedup_nodup _)

/-! ## Idempotence of the normalizer components -/

theorem truthy_trim_cond (c : JSString) :
    (!c.isEmpty && !(jsTrim c).isEmpty) = !(jsTrim c).isEmpty := by
  cases c <;> rfl

theorem cleanCity_idem (o : Option JSString) : cleanCity (cleanCity o) = cleanCity o := by
  rcases o with _ | c
  · rfl
  · simp only [cleanCity, truthy_trim_cond]
    cases h : (jsTrim c).isEmpty
    · simp only [Bool.not_false, if_true, cleanCity, truthy_trim_cond, jsTrim_idem, h]
    · simp only [Bool.not_true, Bool.false_eq_true, if_false, cleanCity]

theorem cleanState_idem (o : Option JSString) : cleanState (cleanState o) = cleanState o := by
  rcases o with _ | s
  · rfl
  · simp only [cleanState, truthy_trim_cond]
    cases h : (jsTrim s).isEmpty
    · have htu : jsTrim (jsToUpper (jsTrim s)) = jsToUpper (jsTrim s) := by
        rw [jsTrim_jsToUpper, jsTrim_idem]
      have hne : (jsToUpper (jsTrim s)).isEmpty = false := by
        rw [List.isEmpty_eq_false_iff_exists_mem] at h ⊢
        obtain ⟨x, hx⟩ := h
        exact ⟨jsUpChar x, List.mem_map_of_mem jsUpChar hx⟩
      simp only [Bool.not_false, if_true, cleanState, truthy_trim_cond, htu, hne,
        jsToUpper_idem]
    · simp only [Bool.not_true, Bool.false_eq_true, if_false, cleanState]

theorem cleanRadius_idem (o : Option JSNumber) : cleanRadius (cleanRadius o) = cleanRadius o := by
  rcases o with _ | r
  · rfl
  · simp only [cleanRadius]
    by_cases h : (0:ℚ) ≤ r
    · have h1 : (0:ℚ) ≤ min 500 r := le_min (by norm_num) h
      have h2 : min (500:ℚ) (min 500 r) = min 500 r := by rw [← min_assoc, min_self]
      simp only [h, if_true, cleanRadius, h1, h2]
    · simp only [h, if_false, cleanRadius]

theorem cleanLocationFilter_idem (loc : LocationFilter) :
    cleanLocationFilter (cleanLocationFilter loc) = cleanLocationFilter loc := by
  simp only [cleanLocationFilter, cleanCity_idem, cleanState_idem, cleanRadius_idem]

theorem copyTruthyStr_idem (o : Option JSString) :
    copyTruthyStr (copyTruthyStr o) = copyTruthyStr o := by
  rcases o with _ | s
  · rfl
  · simp only [copyTruthyStr]
    cases h : s.isEmpty
    · simp only [Bool.not_false, if_true, copyTruthyStr, h]
    · simp only [Bool.not_true, Bool.false_eq_true, if_false, copyTruthyStr]

theorem cleanDateRange_idem (range : DateRange) :
    cleanDateRange (cleanDateRange range) = cleanDateRange range := by
  simp only [cleanDateRange, copyTruthyStr_idem]

theorem cleanEndpoint_idem (o : Option JSNumber) :
    cleanEndpoint (cleanEndpoint o) = cleanEndpoint o := by
  rcases o with _ | m
  · rfl
  · simp only [cleanEndpoint]
    by_cases h : (0:ℚ) ≤ m
    · simp only [h, if_true, cleanEndpoint]
    · simp only [h, if_false, cleanEndpoint]

theorem cleanNumericRange_idem (range : NumericRange) :
    cleanNumericRange (cleanNumericRange range) = cleanNumericRange range := by
  simp only [cleanNumericRange, cleanEndpoint_idem]

theorem cleanSearchText_idem (o : Option JSString) :
    cleanSearchText (cleanSearchText o) = cleanSearchText o := by
  rcases o with _ | s
  · rfl
  · simp only [cleanSearchText]
    cases hs : s.isEmpty
    · cases ht : (jsTrim s).isEmpty
      · simp only [Bool.not_false, if_true, cleanSearchText, jsTrim_idem, ht]
      · simp only [Bool.not_true, Bool.false_eq_true, if_false, Bool.not_false, if_true,
          cleanSearchText]
    · simp only [Bool.not_true, Bool.false_eq_true, if_false, cleanSearchText]

theorem cleanPage_idem (o : Option JSNumber) : cleanPage (cleanPage o) = cleanPage o := by
  rcases o with _ | p
  · rfl
  · simp only [cleanPage]
    by_cases h : p = 0
    · simp only [h, ne_eq, not_true_eq_false, if_false, cleanPage]
    · have h1 : max (1:ℚ) p ≠ 0 := by
        have : (1:ℚ) ≤ max 1 p := le_max_left 1 p
        intro he
        rw [he] at this
        norm_num at this
      have h2 : max (1:ℚ) (max 1 p) = max 1 p := by rw [← max_assoc, max_self]
      simp only [ne_eq, h, not_false_eq_true, if_true, cleanPage, h1, h2]

theorem cleanPerPage_idem (o : Option JSNumber) :
    cleanPerPage (cleanPerPage o) = cleanPerPage o := by
  rcases o with _ | p
  · rfl
  · simp only [cleanPerPage]
    by_cases h : p = 0
    · simp only [h, ne_eq, not_true_eq_false, if_false, cleanPerPage]
    · have hq1 : (1:ℚ) ≤ min 100 (max 1 p) := le_min (by norm_num) (le_max_left 1 p)
      have hq100 : min (100:ℚ) (max 1 p) ≤ 100 := min_le_left 100 (max 1 p)
      have h1 : min (100:ℚ) (max 1 p) ≠ 0 := by
        intro he
        rw [he] at hq1
        norm_num at hq1
      have h2 : min (100:ℚ) (max 1 (min 100 (max 1 p))) = min 100 (max 1 p) := by
        rw [max_eq_right hq1, min_eq_right hq100]
      simp only [ne_eq, h, not_false_eq_true, if_true, cleanPerPage, h1, h2]

theorem map_comp_idem {α : Type} (g : α → α) (hg : ∀ a, g (g a) = g a) (o : Option α) :
    Option.map (g ∘ g) o = Option.map g o := by
  rcases o with _ | a
  · rfl
  · show some ((g ∘ g) a) = some (g a)
    rw [Function.comp_apply, hg]

/-- Idempotence of `normalizeSearchFilters` (shared workhorse lemma). -/
theorem normalize_normalize (f : SearchFilters) :
    normalizeSearchFilters (normalizeSearchFilters f) = normalizeSearchFilters f := by
  unfold normalizeSearchFilters
  simp only [Option.map_map]
  congr 1 <;>
    first
      | exact map_comp_idem _ cleanLocationFilter_idem _
      | exact map_comp_idem _ cleanDateRange_idem _
      | exact map_comp_idem _ cleanNumericRange_idem _
      | exact map_comp_idem _ cleanArray_idem _
      | exact cleanSearchText_idem _
      | exact copyTruthyStr_idem _
      | exact cleanPage_idem _
      | exact cleanPerPage_idem _

/-! ## Validator error-list structure -/

theorem mem_siteErrs {α : Type} {o : Option α} {fn : α → Option FilterValidationError}
    {e : FilterValidationError} (h : e ∈ siteErrs o fn) :
    ∃ a, o = some a ∧ fn a = some e := by
  rcases o with _ | a
  · cases h
  · have h2 : e ∈ (fn a).toList := h
    cases hfa : fn a with
    | none => rw [hfa] at h2; cases h2
    | some e2 =>
      rw [hfa] at h2
      exact ⟨a, rfl, by rw [List.mem_singleton.mp h2]; exact hfa⟩

theorem siteErrs_length {α : Type} (o : Option α) (fn : α → Option FilterValidationError) :
    (siteErrs o fn).length ≤ 1 := by
  rcases o with _ | a
  · exact Nat.zero_le 1
  · show ((fn a).toList).length ≤ 1
    rcases fn a with _ | e
    · exact Nat.zero_le 1
    · exact Nat.le_refl 1

theorem countP_siteErrs_le {α : Type} (o : Option α) (fn : α → Option FilterValidationError)
    (fld g : SFField) (hf : ∀ a e, fn a = some e → e.field = fld) :
    (siteErrs o fn).countP (fun e => decide (e.field = g)) ≤ if fld = g then 1 else 0 := by
  by_cases hg : fld = g
  · rw [if_pos hg]
    exact Nat.le_trans (List.countP_le_length _) (siteErrs_length o fn)
  · rw [if_neg hg]
    rw [Nat.le_zero, List.countP_eq_zero]
    intro e he
    obtain ⟨a, _, hfa⟩ := mem_siteErrs he
    simp only [decide_eq_true_eq]
    rw [hf a e hfa]
    exact hg

theorem validateDateRange_field (r : DateRange) (fld : SFField) (e : FilterValidationError)
    (h : validateDateRange r fld = some e) : e.field = fld := by
  unfold validateDateRange at h
  split at h
  · split at h
    · split at h
      · injection h with h2
        rw [← h2]
      · cases h
    · cases h
  · cases h

theorem validateNumericRange_field (r : NumericRange) (fld : SFField) (lo hi : ℚ)
    (e : FilterValidationError) (h : validateNumericRange r fld lo hi = some e) :
    e.field = fld := by
  unfold validateNumericRange at h
  split at h <;> repeat' split at h
  all_goals first
    | (injection h with h2; subst h2; rfl)
    | injection h

theorem validateLocationFilter_field (l : LocationFilter) (fld : SFField)
    (e : FilterValidationError) (h : validateLocationFilter l fld = some e) :
    e.field = fld := by
  unfold validateLocationFilter at h
  split at h <;> repeat' split at h
  all_goals first
    | (injection h with h2; subst h2; rfl)
    | injection h

theorem if_some_field {p : Prop} [Decidable p] {fld : SFField} {msg : JSString}
    {e : FilterValidationError}
    (h : (if p then some (⟨fld, msg⟩ : FilterValidationError) else none) = some e) :
    e.field = fld := by
  split at h
  · injection h with h2; subst h2; rfl
  · cases h


/-- The fields checked by `validateSearchFilters`, in source order (written
as appends mirroring the accumulation structure of the validator). -/
def validatedFields : List SFField :=
  [.pickup_date_range] ++ [.delivery_date_range] ++ [.rate_range] ++ [.rate_per_mile_range] ++
  [.weight_range] ++ [.distance_range] ++ [.origin] ++ [.destination] ++ [.equipment_types] ++
  [.page] ++ [.per_page]

theorem siteErrs_map_field_sublist {q : Type} (o : Option q)
    (fn : q → Option FilterValidationError) (fld : SFField)
    (hf : ∀ a e, fn a = some e → e.field = fld) :
    ((siteErrs o fn).map (fun e => e.field)).Sublist [fld] := by
  rcases o with _ | a
  · exact List.nil_sublist _
  · show (((fn a).toList).map (fun e => e.field)).Sublist [fld]
    cases hfa : fn a with
    | none => exact List.nil_sublist _
    | some e =>
      have he : e.field = fld := hf a e hfa
      show ([e].map (fun e => e.field)).Sublist [fld]
      rw [List.map_singleton, he]

/-- The fields of the accumulated error list form a sublist of the eleven
checked fields (hence each appears at most once). -/
theorem validate_fields_sublist (f : SearchFilters) :
    ((validateSearchFilters f).map (fun e => e.field)).Sublist validatedFields := by
  unfold validateSearchFilters validatedFields
  simp only [List.map_append]
  refine List.Sublist.append ?_
    (siteErrs_map_field_sublist _ _ _ (fun a e he => if_some_field he))
  refine List.Sublist.append ?_
    (siteErrs_map_field_sublist _ _ _ (fun a e he => if_some_field he))
  refine List.Sublist.append ?_
    (siteErrs_map_field_sublist _ _ _ (fun a e he => if_some_field he))
  refine List.Sublist.append ?_
    (siteErrs_map_field_sublist _ _ _ (fun a e he => validateLocationFilter_field a _ e he))
  refine List.Sublist.append ?_
    (siteErrs_map_field_sublist _ _ _ (fun a e he => validateLocationFilter_field a _ e he))
  refine List.Sublist.append ?_
    (siteErrs_map_field_sublist _ _ _ (fun a e he => validateNumericRange_field a _ _ _ e he))
  refine List.Sublist.append ?_
    (siteErrs_map_field_sublist _ _ _ (fun a e he => validateNumericRange_field a _ _ _ e he))
  refine List.Sublist.append ?_
    (siteErrs_map_field_sublist _ _ _ (fun a e he => validateNumericRange_field a _ _ _ e he))
  refine List.Sublist.append ?_
    (siteErrs_map_field_sublist _ _ _ (fun a e he => validateNumericRange_field a _ _ _ e he))
  exact List.Sublist.append
    (siteErrs_map_field_sublist _ _ _ (fun a e he => validateDateRange_field a _ e he))
    (siteErrs_map_field_sublist _ _ _ (fun a e he => validateDateRange_field a _ e he))

/-- C9: `validateSearchFilters` reports at most one error per filter field:
each checked field contributes through exactly one site, each site returns at
most one error (the first applicable check), and the sites carry pairwise
distinct field names. -/
theorem claim_C9 (f : SearchFilters) (g : SFField) :
    (validateSearchFilters f).countP (fun e => decide (e.field = g)) ≤ 1 := by
  have h1 : (validateSearchFilters f).countP (fun e => decide (e.field = g)) =
      ((validateSearchFilters f).map (fun e => e.field)).countP (fun x => decide (x = g)) := by
    rw [List.countP_map]
    rfl
  rw [h1]
  refine Nat.le_trans (List.Sublist.countP_le _ (validate_fields_sublist f)) ?_
  rcases g <;> decide

/-! ## Normalizer range facts -/

/-- Both endpoints of a (possibly absent) numeric range are nonnegative
whenever present. -/
def rangeEndpointsNonneg : Option NumericRange → Prop
  | some r =>
    (match r.min with
     | some m => 0 ≤ m
     | none => True) ∧
    (match r.max with
     | some m => 0 ≤ m
     | none => True)
  | none => True

theorem cleanEndpoint_nonneg (o : Option JSNumber) :
    match cleanEndpoint o with
    | some m => 0 ≤ m
    | none => True := by
  rcases o with _ | m
  · trivial
  · show (match (if 0 ≤ m then some m else none : Option JSNumber) with
      | some m => 0 ≤ m
      | none => True)
    by_cases h : (0:ℚ) ≤ m
    · rw [if_pos h]; exact h
    · rw [if_neg h]; trivial

theorem map_cleanNumericRange_nonneg (o : Option NumericRange) :
    rangeEndpointsNonneg (o.map cleanNumericRange) := by
  rcases o with _ | r
  · trivial
  · exact ⟨cleanEndpoint_nonneg r.min, cleanEndpoint_nonneg r.max⟩

/-- The radius of a (possibly absent) location filter lies in [0, 500]
whenever present. -/
def radiusInRange : Option LocationFilter → Prop
  | some l =>
    (match l.radius with
     | some r => 0 ≤ r ∧ r ≤ 500
     | none => True)
  | none => True

theorem cleanRadius_inRange (o : Option JSNumber) :
    match cleanRadius o with
    | some r => 0 ≤ r ∧ r ≤ 500
    | none => True := by
  rcases o with _ | r
  · trivial
  · show (match (if 0 ≤ r then some (min 500 r) else none : Option JSNumber) with
      | some r => 0 ≤ r ∧ r ≤ 500
      | none => True)
    by_cases h : (0:ℚ) ≤ r
    · rw [if_pos h]
      exact ⟨le_min (by norm_num) h, min_le_left 500 r⟩
    · rw [if_neg h]; trivial

theorem map_cleanLocationFilter_radius (o : Option LocationFilter) :
    radiusInRange (o.map cleanLocationFilter) := by
  rcases o with _ | l
  · trivial
  · exact cleanRadius_inRange l.radius

/-- A (possibly absent) page value is at least 1 whenever present. -/
def pageInRange : Option JSNumber → Prop
  | some p => 1 ≤ p
  | none => True

/-- A (possibly absent) per-page value lies in [1, 100] whenever present. -/
def perPageInRange : Option JSNumber → Prop
  | some p => 1 ≤ p ∧ p ≤ 100
  | none => True

theorem cleanPage_inRange (o : Option JSNumber) : pageInRange (cleanPage o) := by
  rcases o with _ | p
  · trivial
  · show pageInRange (if p ≠ 0 then some (max 1 p) else none)
    by_cases h : p = 0
    · rw [if_neg (by simp [h])]; trivial
    · rw [if_pos h]
      exact le_max_left 1 p

theorem cleanPerPage_inRange (o : Option JSNumber) : perPageInRange (cleanPerPage o) := by
  rcases o with _ | p
  · trivial
  · show perPageInRange (if p ≠ 0 then some (min 100 (max 1 p)) else none)
    by_cases h : p = 0
    · rw [if_neg (by simp [h])]; trivial
    · rw [if_pos h]
      exact ⟨le_min (by norm_num) (le_max_left 1 p), min_le_left 100 (max 1 p)⟩

/-- The repaired-value invariant guaranteed by `normalizeSearchFilters`:
radii in [0,500], numeric-range endpoints nonnegative, `page ≥ 1`,
`per_page` in [1,100] (whenever the fields are present). -/
def repairedInvariant (f : SearchFilters) : Prop :=
  radiusInRange f.origin ∧ radiusInRange f.destination ∧
  rangeEndpointsNonneg f.rate_range ∧ rangeEndpointsNonneg f.rate_per_mile_range ∧
  rangeEndpointsNonneg f.weight_range ∧ rangeEndpointsNonneg f.distance_range ∧
  pageInRange f.page ∧ perPageInRange f.per_page

theorem normalize_repairedInvariant (f : SearchFilters) :
    repairedInvariant (normalizeSearchFilters f) :=
  ⟨map_cleanLocationFilter_radius f.origin,
   map_cleanLocationFilter_radius f.destination,
   map_cleanNumericRange_nonneg f.rate_range,
   map_cleanNumericRange_nonneg f.rate_per_mile_range,
   map_cleanNumericRange_nonneg f.weight_range,
   map_cleanNumericRange_nonneg f.distance_range,
   cleanPage_inRange f.page,
   cleanPerPage_inRange f.per_page⟩

/-! ## Claims C1, C5, C7 -/

/-- The input refuting C1 as stated: a rate range with `min = 10 > max = 5`
(both nonnegative). -/
def cexMinGtMax : SearchFilters :=
  { rate_range := some { min := some 10, max := some 5 } }

/-- C1 counterexample: `normalizeSearchFilters` keeps `min = 10` and
`max = 5` in the output rate range (`cleanNumericRange` never compares
`min` with `max`), so the output violates `min ≤ max` with both present. -/
theorem claim_C1_cex :
    (normalizeSearchFilters cexMinGtMax).rate_range =
      some { min := some 10, max := some 5 } ∧ ¬((10:ℚ) ≤ 5) := by
  constructor
  · rfl
  · norm_num

/-- C1 (amended): every numeric range in the output of
`normalizeSearchFilters` has `0 ≤ min` and `0 ≤ max` whenever the endpoint
is present; `min ≤ max` is not guaranteed. -/
theorem claim_C1 (f : SearchFilters) :
    rangeEndpointsNonneg (normalizeSearchFilters f).rate_range ∧
    rangeEndpointsNonneg (normalizeSearchFilters f).rate_per_mile_range ∧
    rangeEndpointsNonneg (normalizeSearchFilters f).weight_range ∧
    rangeEndpointsNonneg (normalizeSearchFilters f).distance_range :=
  ⟨map_cleanNumericRange_nonneg f.rate_range,
   map_cleanNumericRange_nonneg f.rate_per_mile_range,
   map_cleanNumericRange_nonneg f.weight_range,
   map_cleanNumericRange_nonneg f.distance_range⟩

/-- C5: `normalizeSearchFilters` is idempotent. -/
theorem claim_C5 (f : SearchFilters) :
    normalizeSearchFilters (normalizeSearchFilters f) = normalizeSearchFilters f :=
  normalize_normalize f

/-- C7: `normalizeSearchFilters` never fails — in this embedding both
`validateSearchFilters` and `normalizeSearchFilters` are total functions
(the straight-line source has no `throw`), validation failures surface only
through the returned error list, and normalization always produces a
canonical (idempotent fixpoint) object whose out-of-range values have been
silently repaired. -/
theorem claim_C7 (f : SearchFilters) :
    normalizeSearchFilters (normalizeSearchFilters f) = normalizeSearchFilters f ∧
    repairedInvariant (normalizeSearchFilters f) :=
  ⟨normalize_normalize f, normalize_repairedInvariant f⟩

/-! ## Claims C6, C10 -/

/-- The input refuting C6 as stated: `page = 0` is present (a number) but
falsy, so `normalizeSearchFilters` drops the field instead of clamping it
to `max(1, 0) = 1`. -/
def cexZeroPage : SearchFilters := { page := some 0 }

/-- C6 counterexample: with `page = 0` present in the input, the output of
`normalizeSearchFilters` has no `page` field at all (in particular it is
not `max(1, 0)`). -/
theorem claim_C6_cex :
    cexZeroPage.page = some 0 ∧ (normalizeSearchFilters cexZeroPage).page = none := by
  constructor
  · rfl
  · show cleanPage (some 0) = none
    rw [cleanPage, if_neg (by simp)]

/-- C6 (amended): when `page` (resp. `per_page`) is present and nonzero the
output is `max(1, page)` (resp. `min(100, max(1, per_page))`); a present
zero value is falsy and the field is dropped from the output. -/
theorem claim_C6 (f : SearchFilters) (p : ℚ) :
    (f.page = some p → p ≠ 0 → (normalizeSearchFilters f).page = some (max 1 p)) ∧
    (f.per_page = some p → p ≠ 0 →
      (normalizeSearchFilters f).per_page = some (min 100 (max 1 p))) ∧
    (f.page = some 0 → (normalizeSearchFilters f).page = none) ∧
    (f.per_page = some 0 → (normalizeSearchFilters f).per_page = none) := by
  refine ⟨?_, ?_, ?_, ?_⟩
  · intro hp hp0
    show cleanPage f.page = some (max 1 p)
    rw [hp, cleanPage, if_pos hp0]
  · intro hp hp0
    show cleanPerPage f.per_page = some (min 100 (max 1 p))
    rw [hp, cleanPerPage, if_pos hp0]
  · intro hp
    show cleanPage f.page = none
    rw [hp, cleanPage, if_neg (by simp)]
  · intro hp
    show cleanPerPage f.per_page = none
    rw [hp, cleanPerPage, if_neg (by simp)]

/-- Witness for C6 at `page = 5`, `per_page = 200`. -/
theorem claim_C6_witness :
    (normalizeSearchFilters { page := some 5, per_page := some 200 }).page =
      some (max 1 5) ∧
    (normalizeSearchFilters { page := some 5, per_page := some 200 }).per_page =
      some (min 100 (max 1 200)) :=
  ⟨(claim_C6 { page := some 5, per_page := some 200 } 5).1 rfl (by norm_num),
   (claim_C6 { page := some 5, per_page := some 200 } 200).2.1 rfl (by norm_num)⟩

/-- Presence (not being `undefined`) of each key of a `SearchFilters`
object. -/
def fieldPresent (f : SearchFilters) : SFField → Bool
  | .origin => f.origin.isSome
  | .destination => f.destination.isSome
  | .equipment_types => f.equipment_types.isSome
  | .cargo_types => f.cargo_types.isSome
  | .pickup_date_range => f.pickup_date_range.isSome
  | .delivery_date_range => f.delivery_date_range.isSome
  | .rate_range => f.rate_range.isSome
  | .rate_per_mile_range => f.rate_per_mile_range.isSome
  | .weight_range => f.weight_range.isSome
  | .distance_range => f.distance_range.isSome
  | .status_filters => f.status_filters.isSome
  | .urgency => f.urgency.isSome
  | .exclude_locked => f.exclude_locked.isSome
  | .only_no_bids => f.only_no_bids.isSome
  | .only_my_bids => f.only_my_bids.isSome
  | .exclude_my_bids => f.exclude_my_bids.isSome
  | .search_text => f.search_text.isSome
  | .sort_by => f.sort_by.isSome
  | .sort_order => f.sort_order.isSome
  | .page => f.page.isSome
  | .per_page => f.per_page.isSome

theorem isSome_opt {α β : Type} (t : Option α → Option β) (ht : t none = none)
    {o : Option α} (h : (t o).isSome = true) : o.isSome = true := by
  cases o with
  | none => rw [ht] at h; cases h
  | some a => rfl

/-- C10: `normalizeSearchFilters` never introduces a field — every field
present in its output was present in the input. -/
theorem claim_C10 (f : SearchFilters) (g : SFField)
    (h : fieldPresent (normalizeSearchFilters f) g = true) : fieldPresent f g = true := by
  rcases g <;>
    first
      | exact h
      | exact isSome_opt (Option.map cleanLocationFilter) rfl h
      | exact isSome_opt (Option.map cleanDateRange) rfl h
      | exact isSome_opt (Option.map cleanNumericRange) rfl h
      | exact isSome_opt (Option.map cleanArray) rfl h
      | exact isSome_opt cleanSearchText rfl h
      | exact isSome_opt copyTruthyStr rfl h
      | exact isSome_opt cleanPage rfl h
      | exact isSome_opt cleanPerPage rfl h

/-- Witness for C10 at a filter with a present, surviving `page` field. -/
theorem claim_C10_witness : fieldPresent { page := some (5:ℚ) } SFField.page = true :=
  claim_C10 { page := some (5:ℚ) } SFField.page (by decide)

/-! ## Claims C2, C3, C4 -/

theorem countP_siteErrs_ne {q : Type} (o : Option q) (fn : q → Option FilterValidationError)
    (fld g : SFField) (hne : fld ≠ g) (hf : ∀ a e, fn a = some e → e.field = fld) :
    (siteErrs o fn).countP (fun e => decide (e.field = g)) = 0 := by
  have h := countP_siteErrs_le o fn fld g hf
  rw [if_neg hne] at h
  exact Nat.le_zero.mp h

/-- The input refuting C4 as stated: a 1001-character search text. -/
def cexLongText : SearchFilters := { search_text := some (List.replicate 1001 'x') }

/-- C4 counterexample: `validateSearchFilters` returns no error at all on a
1001-character `search_text` (the validator never inspects that field). -/
theorem claim_C4_cex :
    cexLongText.search_text = some (List.replicate 1001 'x') ∧
    1000 < (List.replicate 1001 'x').length ∧
    validateSearchFilters cexLongText = [] := by
  refine ⟨rfl, ?_, rfl⟩
  rw [List.length_replicate]
  norm_num

/-- C4 (amended): `validateSearchFilters` performs no check on
`search_text` — it never returns an error on that field, regardless of the
text's length. -/
theorem claim_C4 (f : SearchFilters) :
    (validateSearchFilters f).countP (fun e => decide (e.field = SFField.search_text)) = 0 := by
  have h1 : (validateSearchFilters f).countP (fun e => decide (e.field = SFField.search_text)) =
      ((validateSearchFilters f).map (fun e => e.field)).countP
        (fun x => decide (x = SFField.search_text)) := by
    rw [List.countP_map]
    rfl
  have h2 := List.Sublist.countP_le (fun x => decide (x = SFField.search_text))
    (validate_fields_sublist f)
  have h3 : validatedFields.countP (fun x => decide (x = SFField.search_text)) = 0 := by decide
  omega

/-- The input refuting C3 as stated: an equipment-type value outside the
`EquipmentType` union. -/
def cexBadEquipment : SearchFilters := { equipment_types := some ["not_a_type".data] }

/-- C3 counterexample: `"not_a_type"` is not an allowed equipment type, yet
`validateSearchFilters` returns no error (it only checks that a present
array is nonempty, never element membership). -/
theorem claim_C3_cex :
    cexBadEquipment.equipment_types = some ["not_a_type".data] ∧
    "not_a_type".data ∉ validEquipmentTypes ∧
    validateSearchFilters cexBadEquipment = [] := by
  refine ⟨rfl, by decide, rfl⟩

/-- C3 (amended): `validateSearchFilters` never checks membership of
`equipment_types`/`cargo_types` elements in the allowed sets; it reports an
error on `equipment_types` exactly when the field is present and the array
is empty. -/
theorem claim_C3 (f : SearchFilters) :
    (validateSearchFilters f).countP (fun e => decide (e.field = SFField.equipment_types)) =
      if f.equipment_types = some [] then 1 else 0 := by
  unfold validateSearchFilters
  simp only [List.countP_append]
  rw [countP_siteErrs_ne f.pickup_date_range _ SFField.pickup_date_range
      SFField.equipment_types (by decide) (fun a e he => validateDateRange_field a _ e he),
    countP_siteErrs_ne f.delivery_date_range _ SFField.delivery_date_range
      SFField.equipment_types (by decide) (fun a e he => validateDateRange_field a _ e he),
    countP_siteErrs_ne f.rate_range _ SFField.rate_range
      SFField.equipment_types (by decide) (fun a e he => validateNumericRange_field a _ _ _ e he),
    countP_siteErrs_ne f.rate_per_mile_range _ SFField.rate_per_mile_range
      SFField.equipment_types (by decide) (fun a e he => validateNumericRange_field a _ _ _ e he),
    countP_siteErrs_ne f.weight_range _ SFField.weight_range
      SFField.equipment_types (by decide) (fun a e he => validateNumericRange_field a _ _ _ e he),
    countP_siteErrs_ne f.distance_range _ SFField.distance_range
      SFField.equipment_types (by decide) (fun a e he => validateNumericRange_field a _ _ _ e he),
    countP_siteErrs_ne f.origin _ SFField.origin
      SFField.equipment_types (by decide) (fun a e he => validateLocationFilter_field a _ e he),
    countP_siteErrs_ne f.destination _ SFField.destination
      SFField.equipment_types (by decide) (fun a e he => validateLocationFilter_field a _ e he),
    countP_siteErrs_ne f.page
      (fun p => if p ≠ 0 ∧ p < 1 then
        some ⟨.page, "Page number must be greater than 0".data⟩ else none)
      SFField.page SFField.equipment_types (by decide) (fun a e he => if_some_field he),
    countP_siteErrs_ne f.per_page
      (fun p => if p ≠ 0 ∧ (p < 1 ∨ p > 100) then
        some ⟨.per_page, "Results per page must be between 1 and 100".data⟩ else none)
      SFField.per_page SFField.equipment_types (by decide) (fun a e he => if_some_field he)]
  simp only [Nat.zero_add, Nat.add_zero]
  cases he : f.equipment_types with
  | none => rw [if_neg (by simp)]; rfl
  | some ts =>
    cases ts with
    | nil => rw [if_pos rfl]; rfl
    | cons a l => rw [if_neg (by simp)]; rfl

/-- The condition under which the `per_page` check of
`validateSearchFilters` fires: the value is truthy (nonzero) and outside
[1, 100]. -/
def perPageViolation : Option JSNumber → Bool
  | some p => decide (p ≠ 0 ∧ (p < 1 ∨ p > 100))
  | none => false

theorem perPage_site_countP (o : Option JSNumber) :
    (siteErrs o (fun p => if p ≠ 0 ∧ (p < 1 ∨ p > 100) then
      some ⟨.per_page, "Results per page must be between 1 and 100".data⟩ else none)).countP
      (fun e => decide (e.field = SFField.per_page)) =
    if perPageViolation o then 1 else 0 := by
  rcases o with _ | p
  · rfl
  · by_cases hc : p ≠ 0 ∧ (p < 1 ∨ p > 100)
    · have hv : perPageViolation (some p) = true := by
        simp only [perPageViolation, decide_eq_true_eq]
        exact hc
      rw [hv, if_pos rfl]
      show ((if p ≠ 0 ∧ (p < 1 ∨ p > 100) then
        some (⟨SFField.per_page,
          "Results per page must be between 1 and 100".data⟩ : FilterValidationError)
        else none).toList).countP (fun e => decide (e.field = SFField.per_page)) = 1
      rw [if_pos hc]
      rfl
    · have hv : perPageViolation (some p) = false := by
        simp only [perPageViolation, decide_eq_false_iff_not]
        exact hc
      rw [hv, if_neg (by simp)]
      show ((if p ≠ 0 ∧ (p < 1 ∨ p > 100) then
        some (⟨SFField.per_page,
          "Results per page must be between 1 and 100".data⟩ : FilterValidationError)
        else none).toList).countP (fun e => decide (e.field = SFField.per_page)) = 0
      rw [if_neg hc]
      rfl

/-- The input refuting C2 as stated: `per_page = 0` is present but falsy,
so the pagination check (`filters.per_page && ...`) is skipped and no error
is reported. -/
def cexZeroPerPage : SearchFilters := { per_page := some 0 }

/-- C2 counterexample: `validateSearchFilters({per_page: 0})` returns no
error at all. -/
theorem claim_C2_cex :
    cexZeroPerPage.per_page = some 0 ∧ validateSearchFilters cexZeroPerPage = [] := by
  constructor
  · rfl
  · rfl

/-- C2 (amended): `validateSearchFilters` reports no error for
`per_page = 0` (zero is falsy and treated as absent) and none for
`per_page = 100`, and reports an error on the `per_page` field for
`per_page = 101`; in general the `per_page` error fires exactly when the
value is present, nonzero and outside [1, 100]. -/
theorem claim_C2 (f : SearchFilters) :
    validateSearchFilters { per_page := some 0 } = [] ∧
    validateSearchFilters { per_page := some 100 } = [] ∧
    (validateSearchFilters { per_page := some 101 }).countP
      (fun e => decide (e.field = SFField.per_page)) = 1 ∧
    (validateSearchFilters f).countP (fun e => decide (e.field = SFField.per_page)) =
      if perPageViolation f.per_page then 1 else 0 := by
  refine ⟨rfl, rfl, by decide, ?_⟩
  unfold validateSearchFilters
  simp only [List.countP_append]
  rw [countP_siteErrs_ne f.pickup_date_range _ SFField.pickup_date_range
      SFField.per_page (by decide) (fun a e he => validateDateRange_field a _ e he),
    countP_siteErrs_ne f.delivery_date_range _ SFField.delivery_date_range
      SFField.per_page (by decide) (fun a e he => validateDateRange_field a _ e he),
    countP_siteErrs_ne f.rate_range _ SFField.rate_range
      SFField.per_page (by decide) (fun a e he => validateNumericRange_field a _ _ _ e he),
    countP_siteErrs_ne f.rate_per_mile_range _ SFField.rate_per_mile_range
      SFField.per_page (by decide) (fun a e he => validateNumericRange_field a _ _ _ e he),
    countP_siteErrs_ne f.weight_range _ SFField.weight_range
      SFField.per_page (by decide) (fun a e he => validateNumericRange_field a _ _ _ e he),
    countP_siteErrs_ne f.distance_range _ SFField.distance_range
      SFField.per_page (by decide) (fun a e he => validateNumericRange_field a _ _ _ e he),
    countP_siteErrs_ne f.origin _ SFField.origin
      SFField.per_page (by decide) (fun a e he => validateLocationFilter_field a _ e he),
    countP_siteErrs_ne f.destination _ SFField.destination
      SFField.per_page (by decide) (fun a e he => validateLocationFilter_field a _ e he),
    countP_siteErrs_ne f.equipment_types
      (fun ts => if ts.isEmpty then
        some ⟨.equipment_types, "At least one equipment type must be selected".data⟩ else none)
      SFField.equipment_types SFField.per_page (by decide) (fun a e he => if_some_field he),
    countP_siteErrs_ne f.page
      (fun p => if p ≠ 0 ∧ p < 1 then
        some ⟨.page, "Page number must be greater than 0".data⟩ else none)
      SFField.page SFField.per_page (by decide) (fun a e he => if_some_field he)]
  simp only [Nat.zero_add, Nat.add_zero]
  exact perPage_site_countP f.per_page

/-! ## Claim C8 -/

theorem clearRow_user_id (u : Nat) (r : SavedRow) : (clearRow u r).user_id = r.user_id := by
  unfold clearRow
  split <;> rfl

theorem clearRow_default_mono (u : Nat) (r : SavedRow)
    (h : (clearRow u r).is_default = true) : r.is_default = true := by
  unfold clearRow at h
  split at h
  · cases h
  · exact h

theorem clearRow_cleared (u : Nat) (r : SavedRow)
    (hu : (clearRow u r).user_id = u) (hd : (clearRow u r).is_default = true) : False := by
  by_cases hc : r.user_id = u ∧ r.is_default = true
  · have hfalse : (clearRow u r).is_default = false := by
      unfold clearRow
      rw [if_pos hc]
    rw [hfalse] at hd
    exact Bool.noConfusion hd
  · have hr : clearRow u r = r := by
      unfold clearRow
      rw [if_neg hc]
    rw [hr] at hu hd
    exact hc ⟨hu, hd⟩

theorem clearUserDefaults_pairwise {state : List SavedRow} {u : Nat}
    (h : atMostOneDefault state) : atMostOneDefault (clearUserDefaults state u) := by
  unfold atMostOneDefault at h ⊢
  unfold clearUserDefaults
  rw [List.pairwise_map]
  refine h.imp ?_
  intro a b hab hcon
  refine hab ⟨clearRow_default_mono u a hcon.1, clearRow_default_mono u b hcon.2.1, ?_⟩
  rw [← clearRow_user_id u a, ← clearRow_user_id u b]
  exact hcon.2.2

theorem mem_clearUserDefaults {state : List SavedRow} {u : Nat} {a : SavedRow}
    (h : a ∈ clearUserDefaults state u) (hu : a.user_id = u) : a.is_default = false := by
  obtain ⟨r, _, hmap⟩ := List.mem_map.mp h
  subst hmap
  cases hd : (clearRow u r).is_default
  · rfl
  · exact (clearRow_cleared u r hu hd).elim

/-- C8: one sequential execution of the saved-search create operation
preserves the invariant "at most one saved search per user has
`is_default = true`": blank-name and invalid-filter requests do not write;
a default-creating request first clears the user's existing default and
only then appends the new row. -/
theorem claim_C8 (state : List SavedRow) (u : Nat) (name : JSString)
    (filters : SearchFilters) (d : Bool) (hinv : atMostOneDefault state) :
    atMostOneDefault (postSavedSearch state u name filters d) := by
  unfold postSavedSearch
  split
  · exact hinv
  · split
    · exact hinv
    · unfold atMostOneDefault
      rw [List.pairwise_append]
      refine ⟨?_, List.pairwise_singleton _ _, ?_⟩
      · cases d
        · rw [if_neg (by simp)]
          exact hinv
        · rw [if_pos rfl]
          exact clearUserDefaults_pairwise hinv
      · intro a ha b hb
        rw [List.mem_singleton] at hb
        subst hb
        intro hcon
        cases d
        · exact Bool.noConfusion hcon.2.1
        · rw [if_pos rfl] at ha
          have hcleared := mem_clearUserDefaults ha hcon.2.2
          rw [hcleared] at hcon
          exact Bool.noConfusion hcon.1

/-- A one-row table whose single row is user 1's default search. -/
def wRow : SavedRow := ⟨1, "old".data, {}, true⟩

/-- Witness for C8: creating a second default search for user 1 on a table
that already has one preserves the invariant. -/
theorem claim_C8_witness :
    atMostOneDefault (postSavedSearch [wRow] 1 "new".data {} true) :=
  claim_C8 [wRow] 1 "new".data {} true (by decide)
